import Mathlib

/-!
Verification of the voltaire bundler core (validation_manager.py,
bundle_manager.py) against its natural-language specification.

The Python source is shallowly embedded: pure helpers become Lean
functions, functions that can raise become `Except VErr`, machine
integers (uint256 / uint64) become `Nat`, the wall-clock float returned
by `time.time()` becomes `Rat`, strings stay `String`.  External
collaborators (the RPC transport, eth_abi, eth_utils keccak and
checksum encoding) are passed in as explicit parameters or modelled
from the spec where noted.
-/

/-- Lower-cases every character of a string.  Models Python `str.lower()`
on the ASCII hex/address strings processed by the bundler. -/
def lowerStr (s : String) : String :=
  String.mk (s.toList.map Char.toLower)

/-- Python `s[n:]` on the ASCII strings the bundler manipulates
(character-based, kernel-computable). -/
def strDrop (s : String) (n : Nat) : String := String.mk (s.toList.drop n)

/-- Python `s[:n]`. -/
def strTake (s : String) (n : Nat) : String := String.mk (s.toList.take n)

/-- Python `len(s)`. -/
def strLen (s : String) : Nat := s.toList.length

/-- Prefix test on characters. -/
def strStartsWith (s pre : String) : Bool := pre.toList.isPrefixOf s.toList

/-- Value of one hexadecimal digit, `none` for a non-hex character. -/
def hexDigitVal? (c : Char) : Option Nat :=
  let n := c.toNat
  if 48 ≤ n && n ≤ 57 then some (n - 48)
  else if 97 ≤ n && n ≤ 102 then some (n - 87)
  else if 65 ≤ n && n ≤ 70 then some (n - 55)
  else none

/-- Models Python `int(s, 16)` on the clean hex strings that appear in
traces: an optional `0x`/`0X` prefix followed by at least one hex digit;
`none` models the `ValueError` raised on anything else. -/
def hexVal? (s : String) : Option Nat :=
  let t := if strStartsWith s "0x" || strStartsWith s "0X" then strDrop s 2 else s
  if t.toList.isEmpty then none
  else t.toList.foldl
    (fun acc c => do
      let a ← acc
      let d ← hexDigitVal? c
      some (16 * a + d))
    (some 0)

/-- `listInfix a b` holds when the character list `a` occurs contiguously
inside `b`.  Models the Python substring operator `in`. -/
def listInfix (a : List Char) : List Char → Bool
  | [] => a.isEmpty
  | c :: t => a.isPrefixOf (c :: t) || listInfix a t

/-- String containment, Python `a in b`. -/
def substrOf (a b : String) : Bool :=
  listInfix a.toList b.toList

/-- First-match lookup in an association list; models Python `dict`
access on dicts whose keys are unique. -/
def lookupA {α : Type} (m : List (String × α)) (k : String) : Option α :=
  (m.find? (fun p => p.1 == k)).map (fun p => p.2)

/-- Models the side condition of Python `bytes.fromhex`: even length and
only hex digits (the tracer never emits the whitespace `fromhex` also
tolerates). -/
def isEvenHex (s : String) : Bool :=
  strLen s % 2 == 0 && s.toList.all (fun c => (hexDigitVal? c).isSome)

/-- Decodes a plain hex string (no `0x` prefix) into a byte list. -/
def hexPairsToBytes? : List Char → Option (List Nat)
  | [] => some []
  | [_] => none
  | c1 :: c2 :: t => do
    let h ← hexDigitVal? c1
    let l ← hexDigitVal? c2
    let rest ← hexPairsToBytes? t
    some ((16 * h + l) :: rest)

/-- 32-byte big-endian word starting at byte offset `i`. -/
def wordAt (bs : List Nat) (i : Nat) : Option Nat :=
  if i + 32 ≤ bs.length then
    some (((bs.drop i).take 32).foldl (fun a b => 256 * a + b) 0)
  else none

/-- ASCII bytes to string. -/
def bytesToString (bs : List Nat) : String :=
  String.mk (bs.map Char.ofNat)

deriving instance DecidableEq for Except

/-- The `ValidationExceptionCode` enum of `bundler/exceptions.py`
(the members used by the two source files). -/
inductive ExceptionCode
  | SimulateValidation
  | OpcodeValidation
  | InvalidSignature
  | InvalidFields
  | ExpiresShortly
deriving DecidableEq, Repr

/-- Errors an embedded operation can raise.
`validation` is `ValidationException(code, message, payload)`;
`fatalValue` is an explicit `raise ValueError(message)` in the source;
`decodeValue` is the `ValueError` coming out of `int(_, 16)` or
`bytes.fromhex`; the remaining constructors are the Python runtime
errors the source can hit (reading a local before assignment, attribute
access on `None`, `len(None)`, missing dict key, bad list index). -/
inductive VErr
  | validation (code : ExceptionCode) (message : String) (payload : String)
  | fatalValue (message : String)
  | decodeValue
  | unboundLocal
  | attributeErr
  | typeErr
  | keyErr
  | indexErr
deriving DecidableEq, Repr

/-- `StakeInfo` from `user_operation/models.py`. -/
structure StakeInfo where
  stake : Nat
  unstakeDelaySec : Nat
deriving DecidableEq, Repr

/-- `ReturnInfo` from `user_operation/models.py`.  `validAfter` /
`validUntil` are optional because the source guards them with
`is None`. -/
structure ReturnInfo where
  preOpGas : Nat
  prefund : Nat
  sigFailed : Bool
  validAfter : Option Nat
  validUntil : Option Nat
deriving DecidableEq, Repr

/-- The slice of a `UserOperation` the two source files read. -/
structure UserOpInfo where
  sender : String
  factory_address : Option String
  paymaster_address : Option String
  init_code : String
  verification_gas_limit : Nat
  pre_verification_gas : Nat
deriving DecidableEq, Repr

/-- JSON-RPC error object `{message, data?}`. -/
structure RpcError where
  message : String
  data : Option String
deriving DecidableEq, Repr

/-- JSON-RPC reply: either carries an `error` object or a `result`. -/
structure Reply where
  error : Option RpcError
  result : Option String
deriving DecidableEq, Repr

/-- `is_staked` (validation_manager.py line 628): stake > 1 and
unstakeDelaySec > 1. -/
def is_staked (entity_stake : StakeInfo) : Bool :=
  entity_stake.stake > 1 && entity_stake.unstakeDelaySec > 1

/-- `verify_sig_and_pre_operation_gas_and_timestamp`
(validation_manager.py lines 509-547), with the wall clock passed in:
`now` is the float returned by `time.time()` (seconds), embedded as a
rational.  The source compares against `time.time() / 1000`. -/
def verify_sig_and_pre_operation_gas_and_timestamp
    (user_operation : UserOpInfo) (return_info : ReturnInfo)
    (now : Rat) : Except VErr Unit :=
  if return_info.sigFailed then
    .error (.validation .InvalidSignature
      "Invalid UserOp signature or paymaster signature" "")
  else if user_operation.verification_gas_limit
      + user_operation.pre_verification_gas < return_info.preOpGas then
    .error (.validation .SimulateValidation
      "verification gas + preverification gas is too low" "")
  else
    match return_info.validAfter with
    | none => .error (.validation .InvalidFields "Transaction is not valid yet" "")
    | some validAfter =>
      if (validAfter : Rat) > now / 1000 - 30 then
        .error (.validation .InvalidFields "Transaction is not valid yet" "")
      else
        match return_info.validUntil with
        | none => .error (.validation .ExpiresShortly
            "Transaction will expire shortly or has expired." "")
        | some deadline =>
          if (deadline : Rat) + 30 < now / 1000 then
            .error (.validation .ExpiresShortly
              "Transaction will expire shortly or has expired." "")
          else .ok ()

/-- Reply classification of `simulate_validation_without_tracing`
(validation_manager.py lines 138-183).  The construction of the
`eth_call` and its transport are external; this takes the node's reply.
No error, or an error whose message does not contain
"execution reverted", is the fatal `ValueError`; an error without
`data` (or with data shorter than a selector) is a
`SimulateValidation` validation error; otherwise the revert payload is
split into 4-byte selector and body. -/
def simulate_validation_without_tracing (result : Reply) :
    Except VErr (String × String) :=
  match result.error with
  | none => .error (.fatalValue "simulateValidation didn\x27t revert!")
  | some err =>
    if substrOf "execution reverted" err.message = false then
      .error (.fatalValue "simulateValidation didn\x27t revert!")
    else
      match err.data with
      | none => .error (.validation .SimulateValidation err.message "")
      | some d =>
        if strLen d < 10 then
          .error (.validation .SimulateValidation err.message "")
        else .ok (strTake d 10, strDrop d 10)

/-- Reply classification of `get_addresses_code_hash`
(validation_manager.py lines 492-507): the BundlerHelper `eth_call` is
expected to revert; a reply with no error is the fatal `ValueError`,
otherwise the revert data is returned. -/
def get_addresses_code_hash (result : Reply) : Except VErr String :=
  match result.error with
  | none => .error (.fatalValue "BundlerHelper should revert")
  | some err =>
    match err.data with
    | some d => .ok d
    | none => .error .keyErr

/-- The fixed banned opcode list built in `ValidationManager.__init__`
(validation_manager.py lines 63-81); `CREATE2` is commented out there
and handled separately. -/
def banned_opcodes : List String :=
  ["GAS", "NUMBER", "TIMESTAMP", "COINBASE", "DIFFICULTY", "BASEFEE",
   "GASLIMIT", "GASPRICE", "SELFBALANCE", "BALANCE", "ORIGIN", "BLOCKHASH",
   "CREATE", "SELFDESTRUCT", "RANDOM", "PREVRANDAO"]

/-- `verify_banned_opcodes` (validation_manager.py lines 462-490).
The opcode map is an association list (Python dict keys are unique,
so order and multiplicity of the embedded list are immaterial to the
claims); the `found_opcodes` set comprehension is embedded as the
key-order filter, a deterministic choice for the Python set whose
iteration order is unspecified. -/
def verify_banned_opcodes (opcodes : List (String × Nat))
    (opcode_source : String) (is_factory : Bool) : Except VErr Unit :=
  if ((opcodes.map Prod.fst).filter (fun o => banned_opcodes.contains o)).length > 0 then
    .error (.validation .OpcodeValidation
      (opcode_source ++ " uses banned opcode: "
        ++ String.intercalate " "
          ((opcodes.map Prod.fst).filter (fun o => banned_opcodes.contains o))) "")
  else
    match lookupA opcodes "CREATE2" with
    | some c =>
      if c > 1 ∨ (c = 1 ∧ is_factory = false) then
        .error (.validation .OpcodeValidation
          (opcode_source ++ " uses banned opcode: " ++ "CREATE2") "")
      else .ok ()
    | none => .ok ()

/-- `check_banned_op_codes` (validation_manager.py lines 421-431).  The
source gathers three awaitables whose bodies contain no suspension
point, so they run to completion in order factory, account, paymaster,
and the first exception propagates: sequential composition. -/
def check_banned_op_codes (factory_opcodes account_opcodes paymaster_opcodes :
    List (String × Nat)) : Except VErr Unit := do
  verify_banned_opcodes factory_opcodes "factory" true
  verify_banned_opcodes account_opcodes "account" false
  verify_banned_opcodes paymaster_opcodes "paymaster" false

/-- `verify_banned_opcodes` either succeeds or raises an
`OpcodeValidation` validation error. -/
theorem verify_banned_opcodes_shape (ops : List (String × Nat)) (src : String)
    (fb : Bool) : verify_banned_opcodes ops src fb = .ok ()
      ∨ ∃ m, verify_banned_opcodes ops src fb
          = .error (.validation .OpcodeValidation m "") := by
  unfold verify_banned_opcodes
  split
  · exact Or.inr ⟨_, rfl⟩
  · split
    · split
      · exact Or.inr ⟨_, rfl⟩
      · exact Or.inl rfl
    · exact Or.inl rfl

/-- A banned opcode among the keys forces the `OpcodeValidation` error
naming the role and the found opcodes. -/
theorem verify_banned_found_error (ops : List (String × Nat)) (src : String)
    (fb : Bool) (h : ∃ o ∈ ops.map Prod.fst, o ∈ banned_opcodes) :
    verify_banned_opcodes ops src fb = .error (.validation .OpcodeValidation
      (src ++ " uses banned opcode: "
        ++ String.intercalate " "
          ((ops.map Prod.fst).filter (fun o => banned_opcodes.contains o))) "") := by
  obtain ⟨o, ho, hb⟩ := h
  have hmem : o ∈ (ops.map Prod.fst).filter (fun o => banned_opcodes.contains o) :=
    List.mem_filter.mpr ⟨ho, by simpa using hb⟩
  have hpos : ((ops.map Prod.fst).filter (fun o => banned_opcodes.contains o)).length > 0 :=
    List.length_pos.mpr (List.ne_nil_of_mem hmem)
  unfold verify_banned_opcodes
  rw [if_pos hpos]

/-- Any `CREATE2` occurrence at a non-factory role (account, paymaster)
raises `OpcodeValidation`. -/
theorem verify_banned_create2_nonfactory (ops : List (String × Nat))
    (src : String) (c : Nat) (h : lookupA ops "CREATE2" = some c)
    (hc : 1 ≤ c) : ∃ m, verify_banned_opcodes ops src false
      = .error (.validation .OpcodeValidation m "") := by
  unfold verify_banned_opcodes
  by_cases hf : ((ops.map Prod.fst).filter (fun o => banned_opcodes.contains o)).length > 0
  · rw [if_pos hf]; exact ⟨_, rfl⟩
  · rw [if_neg hf, h]
    have hcond : c > 1 ∨ (c = 1 ∧ (false : Bool) = false) := by
      rcases Nat.eq_or_lt_of_le hc with h1 | h1
      · exact Or.inr ⟨h1.symm, rfl⟩
      · exact Or.inl h1
    exact ⟨_, if_pos hcond⟩

/-- More than one `CREATE2` at the factory role raises
`OpcodeValidation`. -/
theorem verify_banned_create2_factory_many (ops : List (String × Nat))
    (src : String) (c : Nat) (h : lookupA ops "CREATE2" = some c)
    (hc : 1 < c) : ∃ m, verify_banned_opcodes ops src true
      = .error (.validation .OpcodeValidation m "") := by
  unfold verify_banned_opcodes
  by_cases hf : ((ops.map Prod.fst).filter (fun o => banned_opcodes.contains o)).length > 0
  · rw [if_pos hf]; exact ⟨_, rfl⟩
  · rw [if_neg hf, h]
    exact ⟨_, if_pos (Or.inl hc)⟩

/-- With no banned opcode among the keys, the factory is permitted
exactly one `CREATE2` (or none). -/
theorem verify_banned_factory_single_ok (ops : List (String × Nat))
    (src : String) (hclean : ∀ o ∈ ops.map Prod.fst, o ∉ banned_opcodes)
    (h2 : lookupA ops "CREATE2" = none ∨ lookupA ops "CREATE2" = some 1) :
    verify_banned_opcodes ops src true = .ok () := by
  have hfilter : (ops.map Prod.fst).filter (fun o => banned_opcodes.contains o) = [] := by
    rw [List.filter_eq_nil_iff]
    intro o ho
    simpa using hclean o ho
  unfold verify_banned_opcodes
  rcases h2 with h | h
  · rw [if_neg (by rw [hfilter]; decide), h]
  · rw [if_neg (by rw [hfilter]; decide), h]
    exact if_neg (by decide)

/-- A banned opcode in any of the three per-role maps makes
`check_banned_op_codes` raise `OpcodeValidation`. -/
theorem check_banned_lift (f a p : List (String × Nat))
    (h : (∃ o ∈ f.map Prod.fst, o ∈ banned_opcodes)
      ∨ (∃ o ∈ a.map Prod.fst, o ∈ banned_opcodes)
      ∨ (∃ o ∈ p.map Prod.fst, o ∈ banned_opcodes)) :
    ∃ m, check_banned_op_codes f a p
      = .error (.validation .OpcodeValidation m "") := by
  rcases verify_banned_opcodes_shape f "factory" true with hf | ⟨m, hf⟩
  · rcases verify_banned_opcodes_shape a "account" false with ha | ⟨m, ha⟩
    · rcases verify_banned_opcodes_shape p "paymaster" false with hp | ⟨m, hp⟩
      · exfalso
        rcases h with h | h | h
        · rw [verify_banned_found_error f "factory" true h] at hf; simp at hf
        · rw [verify_banned_found_error a "account" false h] at ha; simp at ha
        · rw [verify_banned_found_error p "paymaster" false h] at hp; simp at hp
      · exact ⟨m, by simp [check_banned_op_codes, hf, ha, hp, Bind.bind, Except.bind]⟩
    · exact ⟨m, by simp [check_banned_op_codes, hf, ha, Bind.bind, Except.bind]⟩
  · exact ⟨m, by simp [check_banned_op_codes, hf, Bind.bind, Except.bind]⟩

/-- C2: presence of any opcode of the fixed banned set in a role's
opcode map raises `OpcodeValidation` naming the role and the found
opcodes, and this lifts to any of the three per-role maps of a traced
simulation; `CREATE2` is special-cased: any occurrence at the account
or paymaster role rejects, more than one at the factory role rejects,
and exactly one at the factory role (with no banned opcode) is
accepted. -/
theorem c2_banned_opcode_rules :
    (∀ ops src fb, (∃ o ∈ ops.map Prod.fst, o ∈ banned_opcodes) →
      verify_banned_opcodes ops src fb = .error (.validation .OpcodeValidation
        (src ++ " uses banned opcode: "
          ++ String.intercalate " "
            ((ops.map Prod.fst).filter (fun o => banned_opcodes.contains o))) ""))
    ∧ (∀ ops src c, lookupA ops "CREATE2" = some c → 1 ≤ c →
      ∃ m, verify_banned_opcodes ops src false
        = .error (.validation .OpcodeValidation m ""))
    ∧ (∀ ops src c, lookupA ops "CREATE2" = some c → 1 < c →
      ∃ m, verify_banned_opcodes ops src true
        = .error (.validation .OpcodeValidation m ""))
    ∧ (∀ ops src, (∀ o ∈ ops.map Prod.fst, o ∉ banned_opcodes) →
      (lookupA ops "CREATE2" = none ∨ lookupA ops "CREATE2" = some 1) →
      verify_banned_opcodes ops src true = .ok ())
    ∧ (∀ f a p, ((∃ o ∈ f.map Prod.fst, o ∈ banned_opcodes)
        ∨ (∃ o ∈ a.map Prod.fst, o ∈ banned_opcodes)
        ∨ (∃ o ∈ p.map Prod.fst, o ∈ banned_opcodes)) →
      ∃ m, check_banned_op_codes f a p
        = .error (.validation .OpcodeValidation m "")) :=
  ⟨verify_banned_found_error, verify_banned_create2_nonfactory,
   verify_banned_create2_factory_many, verify_banned_factory_single_ok,
   check_banned_lift⟩

/-- Witness for C2 at concrete opcode maps (spec scenario 3 among
them): a paymaster map containing TIMESTAMP, a single account CREATE2,
a double factory CREATE2, a clean factory with one CREATE2, and the
three-map lift. -/
theorem c2_banned_opcode_rules_witness :
    verify_banned_opcodes [("TIMESTAMP", 1)] "paymaster" false
      = .error (.validation .OpcodeValidation
        "paymaster uses banned opcode: TIMESTAMP" "")
    ∧ (∃ m, verify_banned_opcodes [("CREATE2", 1)] "account" false
        = .error (.validation .OpcodeValidation m ""))
    ∧ (∃ m, verify_banned_opcodes [("CREATE2", 2)] "factory" true
        = .error (.validation .OpcodeValidation m ""))
    ∧ verify_banned_opcodes [("CREATE2", 1), ("POP", 3)] "factory" true = .ok ()
    ∧ (∃ m, check_banned_op_codes [] [] [("TIMESTAMP", 1)]
        = .error (.validation .OpcodeValidation m "")) :=
  ⟨by rw [c2_banned_opcode_rules.1 [("TIMESTAMP", 1)] "paymaster" false
       ⟨"TIMESTAMP", by decide, by decide⟩]; decide,
   c2_banned_opcode_rules.2.1 [("CREATE2", 1)] "account" 1 (by decide) (by decide),
   c2_banned_opcode_rules.2.2.1 [("CREATE2", 2)] "factory" 2 (by decide) (by decide),
   c2_banned_opcode_rules.2.2.2.1 [("CREATE2", 1), ("POP", 3)] "factory"
     (by decide) (Or.inr (by decide)),
   c2_banned_opcode_rules.2.2.2.2 [] [] [("TIMESTAMP", 1)]
     (Or.inr (Or.inr ⟨"TIMESTAMP", by decide, by decide⟩))⟩

/-- The 32-byte left-padding of an address as built at
validation_manager.py lines 609-610 and 704-707: `0x`, twenty-four
zero digits, then the lower-cased 40 hex digits of the address. -/
def padded_of (address : String) : String :=
  "0x000000000000000000000000" ++ lowerStr (strDrop address 2)

/-- The loop of `is_slot_associated_with_address`
(validation_manager.py lines 616-624): `int(a, 16)` each associated
slot in turn (a parse failure is the propagated `ValueError`, hence
`none`) and accept when `slot_int` lies in `[k, k+18)`. -/
def assocScan (slot_int : Nat) : List String → Option Bool
  | [] => some false
  | a :: rest =>
    match hexVal? a with
    | none => none
    | some k =>
      if slot_int ≥ k ∧ slot_int < k + 18 then some true
      else assocScan slot_int rest

/-- `is_slot_associated_with_address` (validation_manager.py lines
605-626).  `none` models the `ValueError` of a failed `int(_, 16)`;
the source's unused local `address_lowercase` is dropped. -/
def is_slot_associated_with_address (slot address : String)
    (associated_slots : List String) : Option Bool :=
  if slot == padded_of address then some true
  else
    match hexVal? slot with
    | none => none
    | some slot_int => assocScan slot_int associated_slots

/-- Inner loop of `parse_entity_slots` (validation_manager.py lines
699-718) for one entity: walk the traced keccak preimages in order and,
for each preimage containing the `0x`-prefixed padded address as a
substring, append `kec` of the preimage's hex payload unless already
present.  `kec` abstracts the external `eth_utils.keccak` composed with
`bytes.fromhex` / `.hex()`; a payload `bytes.fromhex` would reject is
the propagated `ValueError`. -/
def esfLoop (kec : String → String) (padded : String) :
    List String → List String → Except VErr (List String)
  | acc, [] => .ok acc
  | acc, p :: rest =>
    if substrOf padded p then
      if isEvenHex (strDrop p 2) then
        esfLoop kec padded
          (if acc.contains (kec (strDrop p 2)) then acc else acc ++ [kec (strDrop p 2)])
          rest
      else .error .decodeValue
    else esfLoop kec padded acc rest

/-- The associated-slots list `parse_entity_slots` builds for one
entity address. -/
def entity_slots_for (kec : String → String) (keccak_list : List String)
    (address : String) : Except VErr (List String) :=
  esfLoop kec (padded_of address) [] keccak_list

/-- Row-building loop for `parse_entity_slots`. -/
def pesRows (kec : String → String) (keccak_list : List String) :
    List String → Except VErr (List (String × List String))
  | [] => .ok []
  | a :: t =>
    match entity_slots_for kec keccak_list a with
    | .error e => .error e
    | .ok l =>
      match pesRows kec keccak_list t with
      | .error e => .error e
      | .ok rest => .ok ((a, l) :: rest)

/-- `parse_entity_slots` (validation_manager.py lines 699-718).  The
source iterates preimages in the outer loop and entities in the inner
loop over one shared dict; entries for distinct addresses never
interact, so the dict is embedded as one row per entity computed
independently (identical per-key values and the same `ValueError`
behaviour).  With an empty keccak list the Python dict stays empty —
no entity gets an entry. -/
def parse_entity_slots (kec : String → String) (entities : List String)
    (keccak_list : List String) : Except VErr (List (String × List String)) :=
  if keccak_list.isEmpty then .ok []
  else pesRows kec keccak_list entities

/-- One-step unfolding of `assocScan` on a cons cell. -/
theorem assocScan_cons (n : Nat) (a : String) (t : List String) :
    assocScan n (a :: t) = match hexVal? a with
      | none => none
      | some k => if n ≥ k ∧ n < k + 18 then some true else assocScan n t := rfl

/-- One-step unfolding of `assocScan` when the head parses. -/
theorem assocScan_cons_some (n : Nat) (a : String) (t : List String)
    (kv : Nat) (hkv : hexVal? a = some kv) :
    assocScan n (a :: t)
      = if n ≥ kv ∧ n < kv + 18 then some true else assocScan n t := by
  rw [assocScan_cons, hkv]

/-- `assocScan` is total on valid hex inputs. -/
theorem assocScan_isSome (n : Nat) (l : List String)
    (h : ∀ k ∈ l, (hexVal? k).isSome) : ∃ b, assocScan n l = some b := by
  induction l with
  | nil => exact ⟨false, rfl⟩
  | cons a t ih =>
    obtain ⟨kv, hkv⟩ := Option.isSome_iff_exists.mp (h a (by simp))
    have ht : ∀ k ∈ t, (hexVal? k).isSome := fun k hk => h k (by simp [hk])
    rw [assocScan_cons_some n a t kv hkv]
    by_cases hc : n ≥ kv ∧ n < kv + 18
    · exact ⟨true, by rw [if_pos hc]⟩
    · rw [if_neg hc]; exact ih ht

/-- Interval characterization of the `assocScan` loop. -/
theorem assocScan_eq_true_iff (n : Nat) (l : List String)
    (h : ∀ k ∈ l, (hexVal? k).isSome) :
    assocScan n l = some true
      ↔ ∃ k ∈ l, ∃ kv, hexVal? k = some kv ∧ kv ≤ n ∧ n < kv + 18 := by
  induction l with
  | nil =>
    rw [show assocScan n ([] : List String) = some false from rfl]
    simp
  | cons a t ih =>
    obtain ⟨kv, hkv⟩ := Option.isSome_iff_exists.mp (h a (by simp))
    have ht : ∀ k ∈ t, (hexVal? k).isSome := fun k hk => h k (by simp [hk])
    rw [assocScan_cons_some n a t kv hkv]
    by_cases hc : n ≥ kv ∧ n < kv + 18
    · rw [if_pos hc]
      constructor
      · intro _; exact ⟨a, by simp, kv, hkv, hc.1, hc.2⟩
      · intro _; rfl
    · rw [if_neg hc, ih ht]
      constructor
      · rintro ⟨k, hk, kv2, h1, h2, h3⟩
        exact ⟨k, by simp [hk], kv2, h1, h2, h3⟩
      · rintro ⟨k, hk, kv2, h1, h2, h3⟩
        rcases (by simpa using hk : k = a ∨ k ∈ t) with rfl | hk2
        · have hkk : kv = kv2 := Option.some.inj (hkv.symm.trans h1)
          exact absurd (⟨by omega, by omega⟩ : n ≥ kv ∧ n < kv + 18) hc
        · exact ⟨k, hk2, kv2, h1, h2, h3⟩

/-- `is_slot_associated_with_address` is total on valid hex inputs. -/
theorem is_slot_associated_isSome (slot address : String) (l : List String)
    (hs : (hexVal? slot).isSome) (hl : ∀ k ∈ l, (hexVal? k).isSome) :
    ∃ b, is_slot_associated_with_address slot address l = some b := by
  unfold is_slot_associated_with_address
  by_cases hp : slot == padded_of address
  · rw [if_pos hp]; exact ⟨true, rfl⟩
  · rw [if_neg hp]
    obtain ⟨n, hn⟩ := Option.isSome_iff_exists.mp hs
    rw [hn]
    exact assocScan_isSome n l hl

/-- Characterization of `is_slot_associated_with_address` on valid hex
inputs: the slot equals the padded address, or lies in `[k, k+17]` for
the value `kv` of some listed associated slot `k`. -/
theorem is_slot_associated_iff (slot address : String) (l : List String)
    (hs : (hexVal? slot).isSome) (hl : ∀ k ∈ l, (hexVal? k).isSome) :
    is_slot_associated_with_address slot address l = some true
      ↔ slot = padded_of address
        ∨ ∃ k ∈ l, ∃ kv sv, hexVal? k = some kv ∧ hexVal? slot = some sv
            ∧ kv ≤ sv ∧ sv < kv + 18 := by
  unfold is_slot_associated_with_address
  by_cases hp : slot == padded_of address
  · rw [if_pos hp]
    constructor
    · intro _
      exact Or.inl (by simpa using hp)
    · intro _
      rfl
  · rw [if_neg hp]
    obtain ⟨n, hn⟩ := Option.isSome_iff_exists.mp hs
    constructor
    · intro hsc
      rw [hn] at hsc
      have hsc2 : assocScan n l = some true := hsc
      rcases (assocScan_eq_true_iff n l hl).mp hsc2 with ⟨k, hk, kv, h1, h2, h3⟩
      exact Or.inr ⟨k, hk, kv, n, h1, hn, h2, h3⟩
    · rintro (h | ⟨k, hk, kv, sv, h1, h2, h3, h4⟩)
      · exact absurd (by simp [h]) hp
      · have hsv : sv = n := by
          rw [hn] at h2
          exact (Option.some.inj h2).symm
        subst hsv
        have hres : assocScan sv l = some true :=
          (assocScan_eq_true_iff sv l hl).mpr ⟨k, hk, kv, h1, h3, h4⟩
        rw [hn]
        exact hres

/-- One-step unfolding of `esfLoop` on a cons cell. -/
theorem esfLoop_cons (kec : String → String) (padded : String)
    (acc : List String) (p : String) (rest : List String) :
    esfLoop kec padded acc (p :: rest)
      = if substrOf padded p then
          (if isEvenHex (strDrop p 2) then
            esfLoop kec padded
              (if acc.contains (kec (strDrop p 2)) then acc
               else acc ++ [kec (strDrop p 2)]) rest
          else .error .decodeValue)
        else esfLoop kec padded acc rest := rfl

/-- Every element reachable through `esfLoop`: the accumulator is
preserved and every matching preimage contributes its hashed payload. -/
theorem esfLoop_mem (kec : String → String) (padded : String)
    (keccaks : List String) :
    ∀ acc l, esfLoop kec padded acc keccaks = .ok l →
      (∀ x ∈ acc, x ∈ l)
      ∧ ∀ p ∈ keccaks, substrOf padded p = true → kec (strDrop p 2) ∈ l := by
  induction keccaks with
  | nil =>
    intro acc l h
    have hacc : acc = l := Except.ok.inj h
    subst hacc
    exact ⟨fun x hx => hx, by simp⟩
  | cons p rest ih =>
    intro acc l h
    rw [esfLoop_cons] at h
    by_cases hm : substrOf padded p
    · rw [if_pos hm] at h
      by_cases hex : isEvenHex (strDrop p 2)
      · rw [if_pos hex] at h
        by_cases hcont : acc.contains (kec (strDrop p 2))
        · rw [if_pos hcont] at h
          obtain ⟨hsub, hrest⟩ := ih _ l h
          have hhead : kec (strDrop p 2) ∈ l := hsub _ (by simpa using hcont)
          refine ⟨hsub, ?_⟩
          intro q hq hq2
          rcases (by simpa using hq : q = p ∨ q ∈ rest) with rfl | hq3
          · exact hhead
          · exact hrest q hq3 hq2
        · rw [if_neg hcont] at h
          obtain ⟨hsub, hrest⟩ := ih _ l h
          have hacc : ∀ x ∈ acc, x ∈ l := fun x hx => hsub x (by simp [hx])
          have hhead : kec (strDrop p 2) ∈ l := hsub _ (by simp)
          refine ⟨hacc, ?_⟩
          intro q hq hq2
          rcases (by simpa using hq : q = p ∨ q ∈ rest) with rfl | hq3
          · exact hhead
          · exact hrest q hq3 hq2
      · rw [if_neg hex] at h
        exact absurd h (by simp)
    · rw [if_neg hm] at h
      obtain ⟨hsub, hrest⟩ := ih _ l h
      refine ⟨hsub, ?_⟩
      intro q hq hq2
      rcases (by simpa using hq : q = p ∨ q ∈ rest) with rfl | hq3
      · exact absurd hq2 (by simp [hm])
      · exact hrest q hq3 hq2

/-- A row of `pesRows` is exactly the per-entity list. -/
theorem pesRows_mem (kec : String → String) (keccaks : List String) :
    ∀ entities m, pesRows kec keccaks entities = .ok m →
      ∀ addr l, (addr, l) ∈ m → entity_slots_for kec keccaks addr = .ok l := by
  intro entities
  induction entities with
  | nil =>
    intro m h addr l hm
    have hm0 : ([] : List (String × List String)) = m := Except.ok.inj h
    rw [← hm0] at hm
    simp at hm
  | cons a t ih =>
    intro m h addr l hm
    rw [show pesRows kec keccaks (a :: t)
        = (match entity_slots_for kec keccaks a with
           | .error e => .error e
           | .ok la =>
             match pesRows kec keccaks t with
             | .error e => .error e
             | .ok rest => .ok ((a, la) :: rest)) from rfl] at h
    cases he : entity_slots_for kec keccaks a with
    | error e => rw [he] at h; exact absurd h (by simp)
    | ok la =>
      rw [he] at h
      cases hr : pesRows kec keccaks t with
      | error e => rw [hr] at h; exact absurd h (by simp)
      | ok mt =>
        rw [hr] at h
        have hm2 : (a, la) :: mt = m := Except.ok.inj h
        rw [← hm2] at hm
        rcases (by simpa using hm : (addr = a ∧ l = la) ∨ (addr, l) ∈ mt) with ⟨rfl, rfl⟩ | hm3
        · exact he
        · exact ih mt hr addr l hm3

/-- The sender entity address used in concrete evaluations. -/
def addrA : String := "0xaaaaaaaaaaaaaaaaaaaaaaaaaaaaaaaaaaaaaaaa"

/-- A keccak preimage that contains the padded form of `addrA` (as hex
digits, at offset 4) but does not start with it. -/
def preimageX : String :=
  "0xff000000000000000000000000aaaaaaaaaaaaaaaaaaaaaaaaaaaaaaaaaaaaaaaa"

/-- C8 (amended): a slot is classified as associated with an entity iff
it equals the 32-byte left-padding of the entity address or its value
lies in `[k, k+17]` for the value of some slot of the entity's
associated-slots list; and that list receives the keccak of every
traced preimage that contains the `0x`-prefixed padded address as a
substring (equivalently, that starts with it, as `0x` cannot occur
later in a hex string).  The amendment relative to the claim: the
padded-address case yields an association backed by no keccak output,
and preimages containing the padded address other than at the start
contribute nothing. -/
theorem c8_associated_slot_rules :
    (∀ slot addr l, (hexVal? slot).isSome → (∀ k ∈ l, (hexVal? k).isSome) →
      (is_slot_associated_with_address slot addr l = some true
        ↔ slot = padded_of addr
          ∨ ∃ k ∈ l, ∃ kv sv, hexVal? k = some kv ∧ hexVal? slot = some sv
              ∧ kv ≤ sv ∧ sv < kv + 18))
    ∧ (∀ kec entities keccaks m addr l,
        parse_entity_slots kec entities keccaks = .ok m → (addr, l) ∈ m →
        ∀ p ∈ keccaks, substrOf (padded_of addr) p = true → kec (strDrop p 2) ∈ l) := by
  constructor
  · exact is_slot_associated_iff
  · intro kec entities keccaks m addr l hp hm p hpk hsub
    by_cases hk : keccaks.isEmpty
    · unfold parse_entity_slots at hp
      rw [if_pos hk] at hp
      have hm0 : ([] : List (String × List String)) = m := Except.ok.inj hp
      rw [← hm0] at hm
      simp at hm
    · unfold parse_entity_slots at hp
      rw [if_neg hk] at hp
      have hrow := pesRows_mem kec keccaks entities m hp addr l hm
      exact (esfLoop_mem kec (padded_of addr) keccaks [] l hrow).2 p hpk hsub

/-- Witness for C8 at concrete inputs: slot `0x05` is associated with
`addrA` through the listed slot `04` (interval `[4, 21]`), and the
single preimage equal to the padded address itself contributes its
hashed payload (hash abstracted as the constant `"cafe"`). -/
theorem c8_associated_slot_rules_witness :
    is_slot_associated_with_address "0x05" addrA ["04"] = some true
    ∧ (fun _ : String => "cafe") (strDrop (padded_of addrA) 2) ∈ ["cafe"] :=
  ⟨(c8_associated_slot_rules.1 "0x05" addrA ["04"] (by decide) (by decide)).mpr
    (Or.inr ⟨"04", by simp, 4, 5, by decide, by decide, by decide, by decide⟩),
   c8_associated_slot_rules.2 (fun _ : String => "cafe") [addrA] [padded_of addrA]
     [(addrA, ["cafe"])] addrA ["cafe"] (by decide) (by simp)
     (padded_of addrA) (by simp) (by decide)⟩

/-- Counterexample for C8 as stated: the preimage `preimageX` contains
the 32-byte padded form of `addrA` (as hex digits), yet
`parse_entity_slots` leaves the associated-slots list of `addrA` empty
— the source searches for the `0x`-prefixed padded string, which only
matches at the start — so the list does not contain the keccak of every
preimage containing the padded address (here instantiated with the
constant hash `"cafe"`, which is not a member of the empty list). -/
theorem c8_associated_slot_rules_counterexample :
    parse_entity_slots (fun _ : String => "cafe") [addrA] [preimageX]
      = .ok [(addrA, [])]
    ∧ substrOf (strDrop (padded_of addrA) 2) preimageX = true
    ∧ ¬ ((fun _ : String => "cafe") (strDrop preimageX 2) ∈ ([] : List String)) := by
  refine ⟨by decide, by decide, by decide⟩

/-- Python membership-guarded association test of
validation_manager.py lines 367-374 / 377-384: `addr` must be a key of
the associated-slots map, and then `is_slot_associated_with_address`
decides (its hex `ValueError` propagates). -/
def assoc_flag (assoc : List (String × List String)) (address slot : String) :
    Except VErr Bool :=
  match lookupA assoc address with
  | none => .ok false
  | some l =>
    match is_slot_associated_with_address slot address l with
    | some b => .ok b
    | none => .error .decodeValue

/-- Boolean value of `assoc_flag` on valid hex inputs. -/
def assoc_flag_b (assoc : List (String × List String)) (address slot : String) :
    Bool :=
  match lookupA assoc address with
  | none => false
  | some l => is_slot_associated_with_address slot address l == some true

/-- Body of the per-slot loop of `validate_entity_storage_access`
(validation_manager.py lines 364-419): the `if`/`elif` chain computing
`require_stake_slot` followed by the stake check, with the two
`OpcodeValidation` messages of the source. -/
def vesa_check_slot (assoc : List (String × List String)) (stk init : Bool)
    (title entity sender contract slot : String) : Except VErr Unit :=
  match assoc_flag assoc sender slot with
  | .error e => .error e
  | .ok true =>
    if init ∧ stk = false then
      .error (.validation .OpcodeValidation
        (String.intercalate " " [title, ":", entity, "insuffient stake to access",
          slot, "at contract :", contract]) "")
    else .ok ()
  | .ok false =>
    match assoc_flag assoc entity slot with
    | .error e => .error e
    | .ok true =>
      if stk = false then
        .error (.validation .OpcodeValidation
          (String.intercalate " " [title, ":", entity, "insuffient stake to access",
            slot, "at contract :", contract]) "")
      else .ok ()
    | .ok false =>
      if contract == entity then
        (if stk = false then
          .error (.validation .OpcodeValidation
            (String.intercalate " " [title, ":", entity, "insuffient stake to access",
              slot, "at contract :", contract]) "")
        else .ok ())
      else
        .error (.validation .OpcodeValidation
          (String.intercalate " " [title, ":", entity, "banned access to slot",
            slot, "at contract :", contract]) "")

/-- Per-contract slot loop (`for slot in slots`, the union
`reads | writes` embedded as the concatenation — per-slot checks are
independent, so multiplicity and order are immaterial). -/
def vesa_slots_loop (assoc : List (String × List String)) (stk init : Bool)
    (title entity sender contract : String) : List String → Except VErr Unit
  | [] => .ok ()
  | sl :: r =>
    match vesa_check_slot assoc stk init title entity sender contract sl with
    | .error e => .error e
    | .ok _ => vesa_slots_loop assoc stk init title entity sender contract r

/-- Contract loop of `validate_entity_storage_access`
(validation_manager.py lines 355-362): contracts equal to the
lower-cased sender or entrypoint are skipped. -/
def vesa_access_loop (assoc : List (String × List String)) (stk init : Bool)
    (title entity sender ep : String) :
    List (String × List String × List String) → Except VErr Unit
  | [] => .ok ()
  | (c, rd, wr) :: rest =>
    if c == lowerStr sender then vesa_access_loop assoc stk init title entity sender ep rest
    else if c == lowerStr ep then vesa_access_loop assoc stk init title entity sender ep rest
    else
      match vesa_slots_loop assoc stk init title entity sender c (rd ++ wr) with
      | .error e => .error e
      | .ok _ => vesa_access_loop assoc stk init title entity sender ep rest

/-- `validate_entity_storage_access` (validation_manager.py lines
340-419).  The `access` map is an association list
`contract ↦ (reads, writes)`. -/
def validate_entity_storage_access (whitelist : List String) (entrypoint : String)
    (entity_address entity_title : String)
    (associated_slots_per_entity : List (String × List String))
    (stake_info : StakeInfo) (sender_address : String)
    (access : List (String × List String × List String))
    (is_init_code : Bool) : Except VErr Unit :=
  if whitelist.contains entity_address then .ok ()
  else vesa_access_loop associated_slots_per_entity (is_staked stake_info)
    is_init_code entity_title entity_address sender_address entrypoint access

/-- The acceptance condition of the `if`/`elif` chain, as a Boolean
function of the two association flags, the stake flag, the init flag,
and the contract-equals-entity test. -/
def vesa_code_accepts (A B stk init C : Bool) : Bool :=
  (A && (!init || stk)) || (!A && B && stk) || (!A && !B && C && stk)

/-- C1's amended acceptance predicate for one `(contract, slot)` pair:
contract is the sender or the entrypoint, or the slot is associated
with the sender per the sender's map entry (and, during initCode,
the entity is staked), or the slot is associated with the entity per
the entity's map entry and the entity is staked, or the contract is the
entity itself and the entity is staked. -/
def amended_accepts (ep entity sender : String)
    (assoc : List (String × List String)) (stk init : Bool)
    (c sl : String) : Bool :=
  c == sender || c == ep ||
  (assoc_flag_b assoc sender sl && (!init || stk)) ||
  (assoc_flag_b assoc entity sl && stk) ||
  (c == entity && stk)

/-- C1's acceptance predicate exactly as the claim words it: the map
membership is not required — an entity absent from the associated-slots
map still has its padded-address/interval association (with the empty
list). -/
def claim_accepts (ep entity sender : String)
    (assoc : List (String × List String)) (stk init : Bool)
    (c sl : String) : Bool :=
  c == sender || c == ep ||
  ((is_slot_associated_with_address sl sender ((lookupA assoc sender).getD [])
      == some true) && (!init || stk)) ||
  ((is_slot_associated_with_address sl entity ((lookupA assoc entity).getD [])
      == some true) && stk) ||
  (c == entity && stk)

/-- A successful lookup pins down a member of the association list. -/
theorem lookupA_mem {α : Type} (m : List (String × α)) (k : String) (v : α)
    (h : lookupA m k = some v) : (k, v) ∈ m := by
  unfold lookupA at h
  obtain ⟨q, hq1, hq2⟩ := Option.map_eq_some'.mp h
  have hm := List.mem_of_find?_eq_some hq1
  have hk : q.1 = k := by simpa using List.find?_some hq1
  obtain ⟨q1, q2⟩ := q
  simp only at hk hq2
  rw [← hk, ← hq2]
  exact hm

/-- On valid hex inputs, `assoc_flag` succeeds with `assoc_flag_b`. -/
theorem assoc_flag_ok (assoc : List (String × List String)) (a sl : String)
    (hs : (hexVal? sl).isSome)
    (hkx : ∀ ad l, (ad, l) ∈ assoc → ∀ k ∈ l, (hexVal? k).isSome) :
    assoc_flag assoc a sl = .ok (assoc_flag_b assoc a sl) := by
  unfold assoc_flag assoc_flag_b
  cases hl : lookupA assoc a with
  | none => rfl
  | some l =>
    obtain ⟨b, hb⟩ := is_slot_associated_isSome sl a l hs
      (hkx a l (lookupA_mem assoc a l hl))
    simp only [hb]
    cases b <;> rfl

/-- The per-slot check succeeds exactly when the `if`/`elif` acceptance
condition holds. -/
theorem vesa_check_slot_ok_iff (assoc : List (String × List String))
    (stk init : Bool) (title entity sender c sl : String)
    (hs : (hexVal? sl).isSome)
    (hkx : ∀ ad l, (ad, l) ∈ assoc → ∀ k ∈ l, (hexVal? k).isSome) :
    vesa_check_slot assoc stk init title entity sender c sl = .ok ()
      ↔ vesa_code_accepts (assoc_flag_b assoc sender sl)
          (assoc_flag_b assoc entity sl) stk init (c == entity) = true := by
  unfold vesa_check_slot vesa_code_accepts
  rw [assoc_flag_ok assoc sender sl hs hkx]
  cases hA : assoc_flag_b assoc sender sl
  · simp only [hA]
    rw [assoc_flag_ok assoc entity sl hs hkx]
    cases hB : assoc_flag_b assoc entity sl
    · simp only [hB]
      cases hC : c == entity
      · simp [hC]
      · simp only [hC]
        cases stk <;> simp
    · simp only [hB]
      cases stk <;> simp
  · simp only [hA]
    cases stk <;> cases init <;> simp

/-- Per-slot bridge to the amended acceptance predicate, for contracts
that are skipped by neither the sender nor the entrypoint test. -/
theorem check_slot_iff_amended (assoc : List (String × List String))
    (stk init : Bool) (title entity sender ep c sl : String)
    (hs : (hexVal? sl).isSome)
    (hkx : ∀ ad l, (ad, l) ∈ assoc → ∀ k ∈ l, (hexVal? k).isSome)
    (h1 : (c == sender) = false) (h2 : (c == ep) = false) :
    vesa_check_slot assoc stk init title entity sender c sl = .ok ()
      ↔ amended_accepts ep entity sender assoc stk init c sl = true := by
  rw [vesa_check_slot_ok_iff assoc stk init title entity sender c sl hs hkx]
  unfold amended_accepts vesa_code_accepts
  rw [h1, h2]
  cases hA : assoc_flag_b assoc sender sl <;>
    cases hB : assoc_flag_b assoc entity sl <;>
      cases hC : c == entity <;> cases stk <;> cases init <;> simp

/-- The slot loop succeeds exactly when every slot passes. -/
theorem vesa_slots_loop_ok_iff (assoc : List (String × List String))
    (stk init : Bool) (title entity sender contract : String) :
    ∀ slots, vesa_slots_loop assoc stk init title entity sender contract slots = .ok ()
      ↔ ∀ sl ∈ slots,
          vesa_check_slot assoc stk init title entity sender contract sl = .ok () := by
  intro slots
  induction slots with
  | nil => simp [vesa_slots_loop]
  | cons sl r ih =>
    rw [show vesa_slots_loop assoc stk init title entity sender contract (sl :: r)
        = (match vesa_check_slot assoc stk init title entity sender contract sl with
           | .error e => .error e
           | .ok _ => vesa_slots_loop assoc stk init title entity sender contract r)
      from rfl]
    cases hc : vesa_check_slot assoc stk init title entity sender contract sl with
    | error e =>
      simp only [hc]
      constructor
      · intro h; exact absurd h (by simp)
      · intro h
        have h2 := h sl (by simp)
        rw [hc] at h2
        exact absurd h2 (by simp)
    | ok u =>
      cases u
      simp only [hc]
      rw [ih]
      constructor
      · intro h t ht
        rcases (by simpa using ht : t = sl ∨ t ∈ r) with rfl | ht2
        · exact hc
        · exact h t ht2
      · intro h t ht
        exact h t (by simp [ht])

/-- The contract loop succeeds exactly when every non-skipped triple is
accepted by the amended predicate (skipped triples are accepted by its
first two disjuncts). -/
theorem vesa_access_loop_ok_iff (assoc : List (String × List String))
    (stk init : Bool) (title entity sender ep : String)
    (hsl : lowerStr sender = sender) (hel : lowerStr ep = ep)
    (hkx : ∀ ad l, (ad, l) ∈ assoc → ∀ k ∈ l, (hexVal? k).isSome) :
    ∀ access, (∀ c rd wr, (c, rd, wr) ∈ access → ∀ sl ∈ rd ++ wr, (hexVal? sl).isSome) →
      (vesa_access_loop assoc stk init title entity sender ep access = .ok ()
        ↔ ∀ c rd wr, (c, rd, wr) ∈ access → ∀ sl ∈ rd ++ wr,
            amended_accepts ep entity sender assoc stk init c sl = true) := by
  intro access
  induction access with
  | nil =>
    intro _
    simp [vesa_access_loop]
  | cons entry rest ih =>
    obtain ⟨c0, rd0, wr0⟩ := entry
    intro hax
    have haxh : ∀ sl ∈ rd0 ++ wr0, (hexVal? sl).isSome :=
      hax c0 rd0 wr0 (by simp)
    have haxt : ∀ c rd wr, (c, rd, wr) ∈ rest → ∀ sl ∈ rd ++ wr, (hexVal? sl).isSome :=
      fun c rd wr hm => hax c rd wr (by simp [hm])
    rw [show vesa_access_loop assoc stk init title entity sender ep ((c0, rd0, wr0) :: rest)
        = (if c0 == lowerStr sender then
             vesa_access_loop assoc stk init title entity sender ep rest
           else if c0 == lowerStr ep then
             vesa_access_loop assoc stk init title entity sender ep rest
           else
             match vesa_slots_loop assoc stk init title entity sender c0 (rd0 ++ wr0) with
             | .error e => .error e
             | .ok _ => vesa_access_loop assoc stk init title entity sender ep rest)
      from rfl]
    by_cases h1 : (c0 == lowerStr sender) = true
    · rw [if_pos h1, ih haxt]
      rw [hsl] at h1
      have hhead : ∀ sl ∈ rd0 ++ wr0,
          amended_accepts ep entity sender assoc stk init c0 sl = true :=
        fun sl _ => by simp [amended_accepts, h1]
      constructor
      · intro ht c rd wr hm sl hs
        rcases (by simpa using hm :
            (c = c0 ∧ rd = rd0 ∧ wr = wr0) ∨ (c, rd, wr) ∈ rest) with ⟨rfl, rfl, rfl⟩ | hm2
        · exact hhead sl hs
        · exact ht c rd wr hm2 sl hs
      · intro h c rd wr hm sl hs
        exact h c rd wr (by simp [hm]) sl hs
    · rw [if_neg h1]
      by_cases h2 : (c0 == lowerStr ep) = true
      · rw [if_pos h2, ih haxt]
        rw [hel] at h2
        have hhead : ∀ sl ∈ rd0 ++ wr0,
            amended_accepts ep entity sender assoc stk init c0 sl = true :=
          fun sl _ => by simp [amended_accepts, h2]
        constructor
        · intro ht c rd wr hm sl hs
          rcases (by simpa using hm :
              (c = c0 ∧ rd = rd0 ∧ wr = wr0) ∨ (c, rd, wr) ∈ rest) with ⟨rfl, rfl, rfl⟩ | hm2
          · exact hhead sl hs
          · exact ht c rd wr hm2 sl hs
        · intro h c rd wr hm sl hs
          exact h c rd wr (by simp [hm]) sl hs
      · rw [if_neg h2]
        have h1f : (c0 == sender) = false := by
          rw [hsl] at h1
          simpa using h1
        have h2f : (c0 == ep) = false := by
          rw [hel] at h2
          simpa using h2
        have hslot : ∀ sl, sl ∈ rd0 ++ wr0 →
            (vesa_check_slot assoc stk init title entity sender c0 sl = .ok ()
              ↔ amended_accepts ep entity sender assoc stk init c0 sl = true) :=
          fun sl hs => check_slot_iff_amended assoc stk init title entity sender ep c0 sl
            (haxh sl hs) hkx h1f h2f
        cases hloop : vesa_slots_loop assoc stk init title entity sender c0 (rd0 ++ wr0) with
        | error e =>
          simp only [hloop]
          constructor
          · intro h
            exact absurd h (by simp)
          · intro h
            have hok : vesa_slots_loop assoc stk init title entity sender c0 (rd0 ++ wr0) = .ok () :=
              (vesa_slots_loop_ok_iff assoc stk init title entity sender c0 (rd0 ++ wr0)).mpr
                (fun sl hs => (hslot sl hs).mpr (h c0 rd0 wr0 (by simp) sl hs))
            rw [hloop] at hok
            exact absurd hok (by simp)
        | ok u =>
          cases u
          simp only [hloop]
          rw [ih haxt]
          have hhead : ∀ sl ∈ rd0 ++ wr0,
              amended_accepts ep entity sender assoc stk init c0 sl = true :=
            fun sl hs => (hslot sl hs).mp
              ((vesa_slots_loop_ok_iff assoc stk init title entity sender c0 (rd0 ++ wr0)).mp
                hloop sl hs)
          constructor
          · intro ht c rd wr hm sl hs
            rcases (by simpa using hm :
                (c = c0 ∧ rd = rd0 ∧ wr = wr0) ∨ (c, rd, wr) ∈ rest) with ⟨rfl, rfl, rfl⟩ | hm2
            · exact hhead sl hs
            · exact ht c rd wr hm2 sl hs
          · intro h c rd wr hm sl hs
            exact h c rd wr (by simp [hm]) sl hs

/-- The entrypoint address used in concrete evaluations. -/
def ep0 : String := "0xe1e1e1e1e1e1e1e1e1e1e1e1e1e1e1e1e1e1e1e1"

/-- The paymaster entity address used in concrete evaluations. -/
def pm0 : String := "0xbbbbbbbbbbbbbbbbbbbbbbbbbbbbbbbbbbbbbbbb"

/-- A third contract address, distinct from sender, entrypoint and
entity. -/
def c0addr : String := "0xcccccccccccccccccccccccccccccccccccccccc"

/-- C1 (amended): for a non-whitelisted entity, with addresses in the
lower-case form the trace uses and valid hex slots,
`validate_entity_storage_access` accepts exactly when every
`(contract, slot)` pair of the access map (reads together with writes)
satisfies: contract is the sender, or the entrypoint, or the slot is
associated with the sender per the sender's entry of the
associated-slots map (and, when initCode runs, the entity is staked),
or the slot is associated with the entity per the entity's map entry
and the entity is staked, or the contract is the entity itself and the
entity is staked.  The amendment relative to the claim: association
requires the address to have an entry in the associated-slots map —
the source skips the association branches entirely for an absent key
(empty traced keccak list), so the claim's map-free association is not
honoured. -/
theorem c1_storage_access_amended (whitelist : List String)
    (entrypoint entity title : String) (assoc : List (String × List String))
    (stake : StakeInfo) (sender : String)
    (access : List (String × List String × List String)) (init : Bool)
    (hwl : whitelist.contains entity = false)
    (hsl : lowerStr sender = sender) (hel : lowerStr entrypoint = entrypoint)
    (hkx : ∀ ad l, (ad, l) ∈ assoc → ∀ k ∈ l, (hexVal? k).isSome)
    (hax : ∀ c rd wr, (c, rd, wr) ∈ access → ∀ sl ∈ rd ++ wr, (hexVal? sl).isSome) :
    validate_entity_storage_access whitelist entrypoint entity title assoc
        stake sender access init = .ok ()
      ↔ ∀ c rd wr, (c, rd, wr) ∈ access → ∀ sl ∈ rd ++ wr,
          amended_accepts entrypoint entity sender assoc (is_staked stake) init
            c sl = true := by
  unfold validate_entity_storage_access
  rw [if_neg (by rw [hwl]; simp)]
  exact vesa_access_loop_ok_iff assoc (is_staked stake) init title entity
    sender entrypoint hsl hel hkx access hax

/-- Witness for C1 at a concrete input: a staked paymaster reading a
slot of its own storage is accepted. -/
theorem c1_storage_access_amended_witness :
    validate_entity_storage_access [] ep0 pm0 "paymaster" [] ⟨2, 2⟩ addrA
      [(pm0, ["0x01"], [])] false = .ok () :=
  (c1_storage_access_amended [] ep0 pm0 "paymaster" [] ⟨2, 2⟩ addrA
    [(pm0, ["0x01"], [])] false (by decide) (by decide) (by decide)
    (by intro ad l hm; exact absurd hm (by simp))
    (by
      intro c rd wr hm sl hs
      rcases (by simpa using hm : c = pm0 ∧ rd = ["0x01"] ∧ wr = []) with ⟨rfl, rfl, rfl⟩
      rcases (by simpa using hs : sl = "0x01") with rfl
      decide)).mpr
    (by
      intro c rd wr hm sl hs
      rcases (by simpa using hm : c = pm0 ∧ rd = ["0x01"] ∧ wr = []) with ⟨rfl, rfl, rfl⟩
      rcases (by simpa using hs : sl = "0x01") with rfl
      decide)

/-- Counterexample for C1 as stated: the keccak list is empty, so the
associated-slots map has no entry for the sender; a staked paymaster
reads the 32-byte left-padding of the sender's address at a third
contract.  Per the claim the slot is associated with the sender (it
equals the padded address), so the triple must be accepted — but the
source, finding the sender absent from the map, never consults the
association and raises the banned-access `OpcodeValidation`. -/
theorem c1_storage_access_counterexample :
    validate_entity_storage_access [] ep0 pm0 "paymaster" [] ⟨2, 2⟩ addrA
      [(c0addr, [padded_of addrA], [])] false ≠ .ok ()
    ∧ claim_accepts ep0 pm0 addrA [] (is_staked ⟨2, 2⟩) false c0addr
        (padded_of addrA) = true := by
  refine ⟨by decide, by decide⟩

/-- One raw record of the tracer's `calls` list as consumed by
`parse_call_stack`: the dict keys read by the source, each optional
(`call.get(...)`).  `frm` stands for the Python key `"from"`. -/
structure TraceCall where
  typ : Option String
  frm : Option String
  toAddr : Option String
  method : Option String
  value : Option String
  gas : Option String
  data : Option String
  gasUsed : Option String
deriving DecidableEq, Repr

/-- The `Call` record of `utils/eth_client_utils.py` (a file not under
src/).  Modelled from the spec, section 3 "Call (flattened stack
frame)": a record of optional fields, all defaulting to `None`. -/
structure Call where
  toAddr : Option String := none
  frm : Option String := none
  typ : Option String := none
  method : Option String := none
  value : Option String := none
  gas : Option String := none
  data : Option String := none
  gas_used : Option String := none
  return_type : Option String := none
deriving DecidableEq, Repr

/-- `Call()` with no arguments. -/
def emptyCall : Call := {}

/-- The `validatePaymasterUserOp` selector constant of
`parse_call_stack` (validation_manager.py line 728). -/
def VALIDATE_PAYMASTER_SELECTOR : String := "0xf465c77e"

/-- The synthesized or popped top frame (validation_manager.py lines
731-736). -/
def pcs_top (stack : List Call) : Call :=
  match stack with
  | [] => { emptyCall with typ := some "top", method := some "validateUserOp" }
  | t :: _ => t

/-- Stack after the pop (empty stays empty, matching the source's
synthesized-top path which pops nothing). -/
def pcs_pop (stack : List Call) : List Call :=
  match stack with
  | [] => []
  | _ :: rest => rest

/-- The frame pushed for a non-RETURN/REVERT entry
(validation_manager.py lines 766-777). -/
def pcs_push (tc : TraceCall) : Call :=
  { emptyCall with
    toAddr := tc.toAddr
    frm := tc.frm
    typ := tc.typ
    method := tc.method
    value := tc.value
    gas := tc.gas
    data := tc.data }

/-- The fields shared by all three result branches
(validation_manager.py lines 740-745). -/
def pcs_base (top : Call) (tc : TraceCall) : Call :=
  { emptyCall with
    toAddr := top.toAddr
    frm := top.frm
    typ := top.typ
    gas := top.gas
    gas_used := tc.gasUsed }

/-- The resolved result frame (validation_manager.py lines 746-755). -/
def pcs_result (top : Call) (tc : TraceCall) (return_data : String) : Call :=
  if top.typ == some "CREATE" then
    { pcs_base top tc with data := some ("len=" ++ toString (strLen return_data)) }
  else if top.typ == some "REVERT" then
    { pcs_base top tc with
      method := top.method
      data := tc.data
      return_type := some "REVERT" }
  else
    { pcs_base top tc with
      method := top.method
      data := tc.data
      return_type := some "RETURN" }

/-- The paymaster-call detection condition (validation_manager.py lines
757-763). -/
def pcs_match (pm : Option String) (result : Call) : Bool :=
  pm.isSome && result.toAddr == pm && result.method == some VALIDATE_PAYMASTER_SELECTOR

/-- The loop of `parse_call_stack` (validation_manager.py lines
729-777); `results` is accumulated in reverse.  A RETURN/REVERT record
without a `data` key is the `KeyError` of `call["data"]` at line 738. -/
def pcs_loop (pm : Option String) :
    List TraceCall → List Call → List Call → Option Call →
    Except VErr (List Call × Option Call)
  | [], _stack, results, pmc => .ok (results.reverse, pmc)
  | tc :: rest, stack, results, pmc =>
    if tc.typ == some "RETURN" || tc.typ == some "REVERT" then
      match tc.data with
      | none => .error .keyErr
      | some return_data =>
        pcs_loop pm rest (pcs_pop stack)
          (pcs_result (pcs_top stack) tc return_data :: results)
          (if pcs_match pm (pcs_result (pcs_top stack) tc return_data)
           then some (pcs_result (pcs_top stack) tc return_data) else pmc)
    else
      pcs_loop pm rest (pcs_push tc :: stack) results pmc

/-- `parse_call_stack` (validation_manager.py lines 720-778). -/
def parse_call_stack (calls : List TraceCall) (paymaster_address : Option String) :
    Except VErr (List Call × Option Call) :=
  pcs_loop paymaster_address calls [] [] none

/-- The paymaster-context rule of `validate_trace_results`
(validation_manager.py lines 318-326): with a paymaster present,
`len(paymaster_call._data) > 194 and not is_paymaster_staked` raises
`OpcodeValidation`.  When no paymaster call was reported,
`paymaster_call` is `None` and `None._data` is an `AttributeError`;
when the reported call's `_data` is `None`, `len(None)` is a
`TypeError`. -/
def paymaster_context_check (paymaster_call : Option Call) (stake : StakeInfo) :
    Except VErr Unit :=
  match paymaster_call with
  | none => .error .attributeErr
  | some c =>
    match c.data with
    | none => .error .typeErr
    | some d =>
      if strLen d > 194 ∧ is_staked stake = false then
        .error (.validation .OpcodeValidation
          "unstaked paymaster must not return context" "")
      else .ok ()

/-- A matched result frame points at the paymaster with the
`validatePaymasterUserOp` selector. -/
theorem pcs_match_spec (pm : Option String) (r : Call)
    (h : pcs_match pm r = true) :
    r.toAddr = pm ∧ pm.isSome = true ∧ r.method = some VALIDATE_PAYMASTER_SELECTOR := by
  unfold pcs_match at h
  simp only [Bool.and_eq_true, beq_iff_eq] at h
  exact ⟨h.1.2, h.1.1, h.2⟩

/-- Every result frame built from a RETURN/REVERT record with data
carries some data. -/
theorem pcs_result_data (top : Call) (tc : TraceCall) (rd : String)
    (hd : tc.data = some rd) : ∃ d, (pcs_result top tc rd).data = some d := by
  unfold pcs_result
  by_cases h1 : top.typ == some "CREATE"
  · rw [if_pos h1]
    exact ⟨_, rfl⟩
  · rw [if_neg h1]
    by_cases h2 : top.typ == some "REVERT"
    · rw [if_pos h2]
      exact ⟨rd, by simp [hd]⟩
    · rw [if_neg h2]
      exact ⟨rd, by simp [hd]⟩

/-- Invariant of `pcs_loop`: the reported paymaster call, when present,
points at the paymaster with the `validatePaymasterUserOp` selector and
carries data. -/
theorem pcs_loop_pm_inv (pm : Option String) :
    ∀ calls stack results pmc rs pmcall,
      (∀ c, pmc = some c → c.toAddr = pm ∧ pm.isSome = true
        ∧ c.method = some VALIDATE_PAYMASTER_SELECTOR ∧ ∃ d, c.data = some d) →
      pcs_loop pm calls stack results pmc = .ok (rs, pmcall) →
      ∀ c, pmcall = some c → c.toAddr = pm ∧ pm.isSome = true
        ∧ c.method = some VALIDATE_PAYMASTER_SELECTOR ∧ ∃ d, c.data = some d := by
  intro calls
  induction calls with
  | nil =>
    intro stack results pmc rs pmcall hinv h
    have h2 : (results.reverse, pmc) = (rs, pmcall) := Except.ok.inj h
    have h3 : pmc = pmcall := congrArg Prod.snd h2
    intro c hc
    rw [← h3] at hc
    exact hinv c hc
  | cons tc rest ih =>
    intro stack results pmc rs pmcall hinv h
    rw [show pcs_loop pm (tc :: rest) stack results pmc
        = (if tc.typ == some "RETURN" || tc.typ == some "REVERT" then
            match tc.data with
            | none => .error .keyErr
            | some return_data =>
              pcs_loop pm rest (pcs_pop stack)
                (pcs_result (pcs_top stack) tc return_data :: results)
                (if pcs_match pm (pcs_result (pcs_top stack) tc return_data)
                 then some (pcs_result (pcs_top stack) tc return_data) else pmc)
           else
            pcs_loop pm rest (pcs_push tc :: stack) results pmc)
      from rfl] at h
    by_cases hrt : (tc.typ == some "RETURN" || tc.typ == some "REVERT") = true
    · rw [if_pos hrt] at h
      cases hd : tc.data with
      | none =>
        rw [hd] at h
        exact absurd h (by simp)
      | some return_data =>
        rw [hd] at h
        refine ih (pcs_pop stack)
          (pcs_result (pcs_top stack) tc return_data :: results) _ rs pmcall ?_ h
        by_cases hmt : pcs_match pm (pcs_result (pcs_top stack) tc return_data) = true
        · rw [if_pos hmt]
          intro c hc
          have hcr : pcs_result (pcs_top stack) tc return_data = c := Option.some.inj hc
          obtain ⟨hto, hps, hmeth⟩ := pcs_match_spec pm _ hmt
          obtain ⟨d, hdd⟩ := pcs_result_data (pcs_top stack) tc return_data hd
          rw [← hcr]
          exact ⟨hto, hps, hmeth, d, hdd⟩
        · rw [if_neg hmt]
          exact hinv
    · rw [if_neg hrt] at h
      exact ih (pcs_push tc :: stack) results pmc rs pmcall hinv h

/-- C6 (amended): for any traced call list and paymaster, the reported
paymaster call (the last flattened frame whose `to` is the paymaster and
whose 4-byte selector is `validatePaymasterUserOp`, `0xf465c77e`)
always carries return data; when its hex length exceeds 194 and the
paymaster is unstaked the context rule raises `OpcodeValidation`
"unstaked paymaster must not return context"; when it is at most 194,
or the paymaster is staked, the rule accepts; and when no such frame
exists (with a paymaster present) the rule dereferences a missing call
record (`AttributeError`) instead of accepting. -/
theorem c6_paymaster_context_rules :
    ∀ calls pmaddr stake rs pmc,
      parse_call_stack calls (some pmaddr) = .ok (rs, pmc) →
      ((∀ c, pmc = some c → c.toAddr = some pmaddr
          ∧ c.method = some VALIDATE_PAYMASTER_SELECTOR ∧ ∃ d, c.data = some d)
       ∧ (∀ c d, pmc = some c → c.data = some d → strLen d > 194 →
           is_staked stake = false →
           paymaster_context_check pmc stake
             = .error (.validation .OpcodeValidation
                 "unstaked paymaster must not return context" ""))
       ∧ (∀ c d, pmc = some c → c.data = some d →
           (strLen d ≤ 194 ∨ is_staked stake = true) →
           paymaster_context_check pmc stake = .ok ())
       ∧ (pmc = none →
           paymaster_context_check pmc stake = .error .attributeErr)) := by
  intro calls pmaddr stake rs pmc hp
  have hinv := pcs_loop_pm_inv (some pmaddr) calls [] [] none rs pmc
    (by intro c hc; exact absurd hc (by simp)) hp
  refine ⟨fun c hc => ?_, ?_, ?_, ?_⟩
  · obtain ⟨h1, _, h3, h4⟩ := hinv c hc
    exact ⟨h1, h3, h4⟩
  · intro c d hc hd hlen hstk
    rw [hc]
    unfold paymaster_context_check
    simp only [hd]
    rw [if_pos ⟨hlen, hstk⟩]
  · intro c d hc hd hdisj
    rw [hc]
    unfold paymaster_context_check
    simp only [hd]
    rw [if_neg (by
      rintro ⟨h1, h2⟩
      rcases hdisj with h | h
      · omega
      · rw [h] at h2; simp at h2)]
  · intro h
    rw [h]
    rfl

/-- A call record entering `validatePaymasterUserOp` on the paymaster. -/
def tcEnter : TraceCall :=
  { typ := some "CALL"
    frm := some ep0
    toAddr := some pm0
    method := some VALIDATE_PAYMASTER_SELECTOR
    value := some "0x0"
    gas := some "0x1"
    data := some "0xabcd"
    gasUsed := none }

/-- 200 hex characters of return data (a context-bearing return). -/
def ret200 : String := "0xababababababababababababababababababababababababababababababababababababababababababababababababababababababababababababababababababababababababababababababababababababababababababababababababababab"

/-- The matching RETURN record. -/
def tcReturn : TraceCall :=
  { typ := some "RETURN"
    frm := none
    toAddr := none
    method := none
    value := none
    gas := none
    data := some ret200
    gasUsed := some "0x5" }

/-- The flattened frame `parse_call_stack` produces for the
`tcEnter`/`tcReturn` pair. -/
def pmDemoCall : Call :=
  { toAddr := some pm0
    frm := some ep0
    typ := some "CALL"
    method := some VALIDATE_PAYMASTER_SELECTOR
    value := none
    gas := some "0x1"
    data := some ret200
    gas_used := some "0x5"
    return_type := some "RETURN" }

set_option maxRecDepth 8192 in
/-- Witness for C6 at a concrete trace (spec scenario 4): a paymaster
call returning 200 hex characters is rejected when the paymaster is
unstaked and accepted when it is staked. -/
theorem c6_paymaster_context_rules_witness :
    parse_call_stack [tcEnter, tcReturn] (some pm0)
      = .ok ([pmDemoCall], some pmDemoCall)
    ∧ paymaster_context_check (some pmDemoCall) ⟨0, 0⟩
        = .error (.validation .OpcodeValidation
            "unstaked paymaster must not return context" "")
    ∧ paymaster_context_check (some pmDemoCall) ⟨2, 2⟩ = .ok () :=
  ⟨by decide,
   (c6_paymaster_context_rules [tcEnter, tcReturn] pm0 ⟨0, 0⟩ [pmDemoCall]
      (some pmDemoCall) (by decide)).2.1 pmDemoCall ret200 rfl (by decide)
      (by decide) (by decide),
   (c6_paymaster_context_rules [tcEnter, tcReturn] pm0 ⟨2, 2⟩ [pmDemoCall]
      (some pmDemoCall) (by decide)).2.2.1 pmDemoCall ret200 rfl (by decide)
      (Or.inr (by decide))⟩

/-- Counterexample for C6 as stated: an empty call list with a
paymaster present reports no paymaster call, and the context rule —
which per the claim should accept ("otherwise this rule accepts") —
instead dereferences `None._data` (an `AttributeError`). -/
theorem c6_paymaster_context_rules_counterexample :
    parse_call_stack [] (some pm0) = .ok ([], none)
    ∧ paymaster_context_check none ⟨0, 0⟩ = .error .attributeErr :=
  ⟨rfl, rfl⟩

/-- Keys of an association-list-embedded dict, in order. -/
def keysOf {α : Type} (m : List (String × α)) : List String := m.map Prod.fst

/-- `DebugEntityData` from `utils/eth_client_utils.py` (not under
src/).  Modelled from the spec, section 3: per-role `access` map
(contract to reads/writes), `opcodes` counts and `contractSize` map
(only its keys are read by the source). -/
structure DebugEntityData where
  access : List (String × List String × List String)
  opcodes : List (String × Nat)
  contract_size : List (String × Nat)
deriving DecidableEq, Repr

/-- `DebugTraceCallData` from `utils/eth_client_utils.py` (not under
src/).  Modelled from the spec, section 3. -/
structure DebugTraceCallData where
  factory_data : DebugEntityData
  account_data : DebugEntityData
  paymaster_data : DebugEntityData
  keccak : List String
  logs : List String
  calls : List TraceCall
  debug : List (List (String × String))
deriving DecidableEq, Repr

/-- The entity list built at validation_manager.py lines 259-266:
factory when present, then sender, then paymaster when present. -/
def entities_of (op : UserOpInfo) : List String :=
  (match op.factory_address with
   | some f => [f]
   | none => [])
  ++ [op.sender]
  ++ (match op.paymaster_address with
      | some pmaddr => [pmaddr]
      | none => [])

/-- `associated_addresses_lowercase` as accumulated at
validation_manager.py lines 281-283, 295-298 and 314-317: the
`contractSize` keys of the account level, then of the factory level
when a factory is present, then of the paymaster level when a paymaster
is present.  The accumulation is pure data interleaved with the checks,
so it is computed in one place. -/
def observed_keys (op : UserOpInfo) (dd : DebugTraceCallData) : List String :=
  keysOf dd.account_data.contract_size
  ++ (match op.factory_address with
      | some _ => keysOf dd.factory_data.contract_size
      | none => [])
  ++ (match op.paymaster_address with
      | some _ => keysOf dd.paymaster_data.contract_size
      | none => [])

/-- The factory block of `validate_trace_results`
(validation_manager.py lines 285-294). -/
def vtr_factory_step (whitelist : List String) (entrypoint : String)
    (assoc : List (String × List String)) (factory_stake : StakeInfo)
    (op : UserOpInfo) (dd : DebugTraceCallData) (init : Bool) :
    Except VErr Unit :=
  match op.factory_address with
  | some f => validate_entity_storage_access whitelist entrypoint f "factory"
      assoc factory_stake op.sender dd.factory_data.access init
  | none => .ok ()

/-- The paymaster block of `validate_trace_results`
(validation_manager.py lines 304-326): storage access, then the
context rule on the reported paymaster call. -/
def vtr_paymaster_step (whitelist : List String) (entrypoint : String)
    (assoc : List (String × List String)) (paymaster_stake : StakeInfo)
    (op : UserOpInfo) (dd : DebugTraceCallData) (init : Bool)
    (pmc : Option Call) : Except VErr Unit :=
  match op.paymaster_address with
  | some pmaddr =>
    match validate_entity_storage_access whitelist entrypoint pmaddr "paymaster"
        assoc paymaster_stake op.sender dd.paymaster_data.access init with
    | .error e => .error e
    | .ok _ => paymaster_context_check pmc paymaster_stake
  | none => .ok ()

/-- `validate_trace_results` (validation_manager.py lines 238-338).
`kec` abstracts `eth_utils.keccak`, `checksum` abstracts
`to_checksum_address` and `helper_reply` is the node's reply to the
BundlerHelper `eth_call` for a given address list; the returned value
is the `(code_hash, associated_addresses)` mutation of the user
operation, `none` when no snapshot is stored.  The final two `if`
statements of the source assign `associated_addresses` only when the
lower-case list is non-empty but read it unconditionally: the empty
case is the unbound-local error. -/
def validate_trace_results (kec : String → String) (checksum : String → String)
    (helper_reply : List String → Reply)
    (whitelist : List String) (entrypoint : String) (op : UserOpInfo)
    (sender_stake factory_stake paymaster_stake : StakeInfo)
    (dd : DebugTraceCallData) :
    Except VErr (Option (String × List String)) :=
  match check_banned_op_codes dd.factory_data.opcodes dd.account_data.opcodes
      dd.paymaster_data.opcodes with
  | .error e => .error e
  | .ok _ =>
    match parse_entity_slots kec (entities_of op) dd.keccak with
    | .error e => .error e
    | .ok assoc =>
      match validate_entity_storage_access whitelist entrypoint op.sender
          "sender" assoc sender_stake op.sender dd.account_data.access
          (decide (strLen op.init_code > 2)) with
      | .error e => .error e
      | .ok _ =>
        match vtr_factory_step whitelist entrypoint assoc factory_stake op dd
            (decide (strLen op.init_code > 2)) with
        | .error e => .error e
        | .ok _ =>
          match parse_call_stack dd.calls op.paymaster_address with
          | .error e => .error e
          | .ok pr =>
            match vtr_paymaster_step whitelist entrypoint assoc paymaster_stake
                op dd (decide (strLen op.init_code > 2)) pr.2 with
            | .error e => .error e
            | .ok _ =>
              if (observed_keys op dd).length > 0 then
                if ((observed_keys op dd).map checksum).length > 0 then
                  match get_addresses_code_hash
                      (helper_reply ((observed_keys op dd).map checksum)) with
                  | .error e => .error e
                  | .ok ch => .ok (some (ch, (observed_keys op dd).map checksum))
                else .ok none
              else .error .unboundLocal

/-- With all three `contractSize` maps empty, no address is observed. -/
theorem observed_keys_nil (op : UserOpInfo) (dd : DebugTraceCallData)
    (h1 : dd.account_data.contract_size = [])
    (h2 : dd.factory_data.contract_size = [])
    (h3 : dd.paymaster_data.contract_size = []) :
    observed_keys op dd = [] := by
  unfold observed_keys keysOf
  rw [h1, h2, h3]
  cases op.factory_address <;> cases op.paymaster_address <;> simp

/-- C10: `validate_trace_results` completes without error only when at
least one address was observed in the collected `contractSize` maps;
and on any trace whose three `contractSize` maps are all empty, once
every earlier check has passed, it fails with the unbound-local error
(reading `associated_addresses` before assignment) instead of skipping
the code-hash snapshot. -/
theorem c10_code_hash_snapshot_unbound :
    (∀ kec checksum helper_reply wl ep op sstk fstk pstk dd x,
      validate_trace_results kec checksum helper_reply wl ep op sstk fstk pstk dd
        = .ok x → observed_keys op dd ≠ [])
    ∧ (∀ kec checksum helper_reply wl ep op sstk fstk pstk dd assoc pr,
        dd.account_data.contract_size = [] →
        dd.factory_data.contract_size = [] →
        dd.paymaster_data.contract_size = [] →
        check_banned_op_codes dd.factory_data.opcodes dd.account_data.opcodes
          dd.paymaster_data.opcodes = .ok () →
        parse_entity_slots kec (entities_of op) dd.keccak = .ok assoc →
        validate_entity_storage_access wl ep op.sender "sender" assoc sstk
          op.sender dd.account_data.access (decide (strLen op.init_code > 2)) = .ok () →
        vtr_factory_step wl ep assoc fstk op dd
          (decide (strLen op.init_code > 2)) = .ok () →
        parse_call_stack dd.calls op.paymaster_address = .ok pr →
        vtr_paymaster_step wl ep assoc pstk op dd
          (decide (strLen op.init_code > 2)) pr.2 = .ok () →
        validate_trace_results kec checksum helper_reply wl ep op sstk fstk pstk dd
          = .error .unboundLocal) := by
  constructor
  · intro kec checksum helper_reply wl ep op sstk fstk pstk dd x h
    unfold validate_trace_results at h
    cases hc1 : check_banned_op_codes dd.factory_data.opcodes
        dd.account_data.opcodes dd.paymaster_data.opcodes with
    | error e => simp only [hc1] at h; exact absurd h (by simp)
    | ok u =>
    cases u
    simp only [hc1] at h
    cases hc2 : parse_entity_slots kec (entities_of op) dd.keccak with
    | error e => simp only [hc2] at h; exact absurd h (by simp)
    | ok assoc =>
    simp only [hc2] at h
    cases hc3 : validate_entity_storage_access wl ep op.sender "sender" assoc
        sstk op.sender dd.account_data.access (decide (strLen op.init_code > 2)) with
    | error e => simp only [hc3] at h; exact absurd h (by simp)
    | ok u =>
    cases u
    simp only [hc3] at h
    cases hc4 : vtr_factory_step wl ep assoc fstk op dd
        (decide (strLen op.init_code > 2)) with
    | error e => simp only [hc4] at h; exact absurd h (by simp)
    | ok u =>
    cases u
    simp only [hc4] at h
    cases hc5 : parse_call_stack dd.calls op.paymaster_address with
    | error e => simp only [hc5] at h; exact absurd h (by simp)
    | ok pr =>
    simp only [hc5] at h
    cases hc6 : vtr_paymaster_step wl ep assoc pstk op dd
        (decide (strLen op.init_code > 2)) pr.2 with
    | error e => simp only [hc6] at h; exact absurd h (by simp)
    | ok u =>
    cases u
    simp only [hc6] at h
    intro hobs
    rw [hobs] at h
    simp at h
  · intro kec checksum helper_reply wl ep op sstk fstk pstk dd assoc pr
      he1 he2 he3 h4 h5 h6 h7 h8 h9
    unfold validate_trace_results
    simp only [h4, h5, h6, h7, h8, h9]
    rw [observed_keys_nil op dd he1 he2 he3]
    simp

/-- A trace with every map empty. -/
def ddEmpty : DebugTraceCallData :=
  ⟨⟨[], [], []⟩, ⟨[], [], []⟩, ⟨[], [], []⟩, [], [], [], []⟩

/-- A user operation with neither factory nor paymaster and empty
init code. -/
def opPlain : UserOpInfo := ⟨addrA, none, none, "0x", 100000, 50000⟩

/-- Witness for C10: on the all-empty trace every earlier check passes
and `validate_trace_results` fails with the unbound-local error. -/
theorem c10_code_hash_snapshot_unbound_witness :
    validate_trace_results (fun s => s) (fun s => s) (fun _ => ⟨none, none⟩)
      [] ep0 opPlain ⟨0, 0⟩ ⟨0, 0⟩ ⟨0, 0⟩ ddEmpty = .error .unboundLocal :=
  c10_code_hash_snapshot_unbound.2 (fun s => s) (fun s => s)
    (fun _ => ⟨none, none⟩) [] ep0 opPlain ⟨0, 0⟩ ⟨0, 0⟩ ⟨0, 0⟩ ddEmpty []
    ([], none) rfl rfl rfl (by decide) (by decide) (by decide) (by decide)
    (by decide) (by decide)

/-- The raw `debug_traceCall` result as consumed by
`format_debug_traceCall_data` and the traced branch of
`validate_user_operation`: `numberLevels`, the trace lists, and the
`debug` step list whose entries are records (the penultimate carries
the REVERT payload). -/
structure RawDebugData where
  numberLevels : List DebugEntityData
  keccak : List String
  logs : List String
  calls : List TraceCall
  debug : List (List (String × String))
deriving DecidableEq, Repr

/-- `format_debug_traceCall_data` (validation_manager.py lines
433-460): reads `numberLevels[0..2]` (an `IndexError` when fewer than
three levels are present) and repackages the rest. -/
def format_debug_traceCall_data (raw : RawDebugData) :
    Except VErr DebugTraceCallData :=
  match raw.numberLevels with
  | f :: a :: pmd :: _ => .ok ⟨f, a, pmd, raw.keccak, raw.logs, raw.calls, raw.debug⟩
  | _ => .error .indexErr

/-- `debug_data["debug"][-2]["REVERT"]` (validation_manager.py lines
100-101): an `IndexError` when the list has fewer than two entries, a
`KeyError` when the penultimate entry has no REVERT field. -/
def debug_revert_of (raw : RawDebugData) : Except VErr String :=
  if h : 2 ≤ raw.debug.length then
    match lookupA (raw.debug.get ⟨raw.debug.length - 2, by omega⟩) "REVERT" with
    | some sv => .ok sv
    | none => .error .keyErr
  else .error .indexErr

/-- `FailedOpRevertData.SELECTOR` from `user_operation/models.py` (not
under src/).  Modelled from the spec: the `FailedOp(uint256,string)`
selector, "recognised via a configured constant". -/
def FAILED_OP_SELECTOR : String := "0x220266b6"

/-- `check_if_failed_op_error` (validation_manager.py lines 632-634). -/
def check_if_failed_op_error (solidity_error_selector : String) : Bool :=
  solidity_error_selector == FAILED_OP_SELECTOR

/-- The record packed by `decode_validation_result`
(validation_manager.py lines 636-686); the eth_abi decode itself is
external, so `validate_user_operation` takes the decode outcome as a
function of the revert body. -/
structure DecodedValidation where
  return_info : ReturnInfo
  sender_info : StakeInfo
  factory_info : StakeInfo
  paymaster_info : StakeInfo
deriving DecidableEq, Repr

/-- `validate_user_operation` (validation_manager.py lines 83-136).
The outcomes of the steps that are pure RPC (pre-verification gas,
fee check, the two simulation calls) and pure ABI decoding are passed
in; everything else is the embedded control flow.  The Python local
`debug_data` is assigned only in the traced branch; the embedded
`Option RawDebugData` is `none` in the unsafe branch, and the
unconditional `format_debug_traceCall_data(debug_data)` call at line
125 becomes the unbound-local error in that case.  `no_trace_mode` is
the source's `is_unsafe` flag. -/
def validate_user_operation (kec : String → String) (checksum : String → String)
    (helper_reply : List String → Reply)
    (whitelist : List String) (entrypoint : String) (op : UserOpInfo) (now : Rat)
    (preverif : Except VErr Unit) (gas_fees : Except VErr String)
    (sim_untraced : Except VErr (String × String))
    (sim_traced : Except VErr RawDebugData)
    (decode_validation : String → Except VErr DecodedValidation)
    (decode_failed : String → Except VErr (Nat × String))
    (no_trace_mode : Bool) : Except VErr Bool :=
  match preverif with
  | .error e => .error e
  | .ok _ =>
    match gas_fees with
    | .error e => .error e
    | .ok _gas_price =>
      match (if no_trace_mode then
              match sim_untraced with
              | .error e => .error e
              | .ok sv => .ok ((none : Option RawDebugData), sv.1, sv.2)
            else
              match sim_traced with
              | .error e => .error e
              | .ok raw =>
                match debug_revert_of raw with
                | .error e => .error e
                | .ok rev => .ok (some raw, strTake rev 10, strDrop rev 10) :
            Except VErr (Option RawDebugData × String × String)) with
      | .error e => .error e
      | .ok (odd, selector, validation_result) =>
        if check_if_failed_op_error selector then
          match decode_failed validation_result with
          | .error e => .error e
          | .ok fr => .error (.validation .SimulateValidation
              ("revert reason : " ++ fr.2) validation_result)
        else
          match decode_validation validation_result with
          | .error e => .error e
          | .ok dec =>
            match verify_sig_and_pre_operation_gas_and_timestamp op
                dec.return_info now with
            | .error e => .error e
            | .ok _ =>
              match odd with
              | none => .error .unboundLocal
              | some raw =>
                match format_debug_traceCall_data raw with
                | .error e => .error e
                | .ok dd =>
                  if no_trace_mode = false then
                    match validate_trace_results kec checksum helper_reply
                        whitelist entrypoint op dec.sender_info dec.factory_info
                        dec.paymaster_info dd with
                    | .error e => .error e
                    | .ok _ => .ok (is_staked dec.sender_info)
                  else .ok (is_staked dec.sender_info)

/-- C9: in unsafe mode (`is_unsafe` set), for every user operation whose
pre-checks, untraced simulation, revert classification, decode and
signature/gas/timestamp checks all pass, `validate_user_operation`
never returns `is_sender_staked`: execution reaches the unconditional
`format_debug_traceCall_data(debug_data)` call whose argument is
assigned only in the traced branch, so it fails with the unbound-local
error. -/
theorem c9_unsafe_mode_unbound (kec : String → String) (checksum : String → String)
    (helper_reply : List String → Reply) (whitelist : List String)
    (entrypoint : String) (op : UserOpInfo) (now : Rat)
    (preverif : Except VErr Unit) (gas_fees : Except VErr String)
    (sim_untraced : Except VErr (String × String))
    (sim_traced : Except VErr RawDebugData)
    (decode_validation : String → Except VErr DecodedValidation)
    (decode_failed : String → Except VErr (Nat × String))
    (gp sel vr : String) (dec : DecodedValidation)
    (h1 : preverif = .ok ())
    (h2 : gas_fees = .ok gp)
    (h3 : sim_untraced = .ok (sel, vr))
    (h4 : check_if_failed_op_error sel = false)
    (h5 : decode_validation vr = .ok dec)
    (h6 : verify_sig_and_pre_operation_gas_and_timestamp op dec.return_info now
      = .ok ()) :
    validate_user_operation kec checksum helper_reply whitelist entrypoint op now
      preverif gas_fees sim_untraced sim_traced decode_validation decode_failed
      true = .error .unboundLocal := by
  unfold validate_user_operation
  simp only [h1, h2, h3, h4, h5, h6, if_true]
  simp

/-- Witness for C9 at concrete oracles whose checks all pass. -/
theorem c9_unsafe_mode_unbound_witness :
    validate_user_operation (fun s => s) (fun s => s) (fun _ => ⟨none, none⟩)
      [] ep0 opPlain 1700000000 (.ok ()) (.ok "0x1")
      (.ok ("0xdeadbeef", "feed")) (.error .keyErr)
      (fun _ => .ok ⟨⟨0, 0, false, some 0, some 1000000000⟩, ⟨0, 0⟩, ⟨0, 0⟩, ⟨0, 0⟩⟩)
      (fun _ => .error .decodeValue) true = .error .unboundLocal :=
  c9_unsafe_mode_unbound (fun s => s) (fun s => s) (fun _ => ⟨none, none⟩)
    [] ep0 opPlain 1700000000 (.ok ()) (.ok "0x1")
    (.ok ("0xdeadbeef", "feed")) (.error .keyErr)
    (fun _ => .ok ⟨⟨0, 0, false, some 0, some 1000000000⟩, ⟨0, 0⟩, ⟨0, 0⟩, ⟨0, 0⟩⟩)
    (fun _ => .error .decodeValue) "0x1" "0xdeadbeef" "feed"
    ⟨⟨0, 0, false, some 0, some 1000000000⟩, ⟨0, 0⟩, ⟨0, 0⟩, ⟨0, 0⟩⟩
    rfl rfl rfl (by decide) rfl
    (by unfold verify_sig_and_pre_operation_gas_and_timestamp; norm_num)

/-- `decode_FailedOp_event` (validation_manager.py lines 688-697).
Modelled from the spec: the decoding of the ABI tuple
`(uint256 opIndex, string reason)` is delegated by the source to the
external `eth_abi` library; embedded here as standard head/tail ABI
decoding of the hex-encoded revert parameters. -/
def decode_FailedOp_event (params : String) : Option (Nat × String) := do
  let bs ← hexPairsToBytes? params.toList
  let opIndex ← wordAt bs 0
  let off ← wordAt bs 32
  let len ← wordAt bs off
  if off + 32 + len ≤ bs.length then
    some (opIndex, bytesToString ((bs.drop (off + 32)).take len))
  else none

/-- Observable outcome of the part of `send_bundle`
(bundle_manager.py lines 156-215) that runs after the submission RPC
returns.  `success` records the `(sender, factory, paymaster)` triples
passed to `update_included_status` for every operation, in order. -/
inductive SendBundleOutcome
  | unboundLocal
  | droppedAll
  | success (included : List (String × Option String × Option String))
deriving DecidableEq, Repr

/-- The reply-handling tail of `send_bundle` (bundle_manager.py lines
156-215).  When the reply carries an error, line 157 evaluates
`"data" in result["error"] and
ValidationManager.check_if_failed_op_error(solidity_error_selector)`
but `solidity_error_selector` is a local first assigned at line 164,
inside that same branch, so an error reply carrying `data` raises
`UnboundLocalError` before any FailedOp decoding, entity banning,
eviction or re-submission can happen (the recursive
`self.send_bundle(...)` at line 197 is additionally never awaited);
an error reply without `data` short-circuits to the "drop all" branch;
a non-error reply reaches the success loop. -/
def send_bundle_reply_handling (result : Reply) (user_operations : List UserOpInfo) :
    SendBundleOutcome :=
  match result.error with
  | some err =>
    if err.data.isSome then .unboundLocal
    else .droppedAll
  | none =>
    .success (user_operations.map
      (fun o => (o.sender, o.factory_address, o.paymaster_address)))

/-- A well-formed ABI encoding of `FailedOp(0, "AA23 reverted: bad sig")`:
opIndex word 0, offset word 0x40, length word 22, then the ASCII bytes
of the reason right-padded to 32 bytes. -/
def failedOpParams0 : String :=
  "0000000000000000000000000000000000000000000000000000000000000000"
  ++ "0000000000000000000000000000000000000000000000000000000000000040"
  ++ "0000000000000000000000000000000000000000000000000000000000000016"
  ++ "414132332072657665727465643a206261642073696700000000000000000000"

/-- A concrete user operation with neither factory nor paymaster. -/
def op_a : UserOpInfo :=
  ⟨"0xa1a1a1a1a1a1a1a1a1a1a1a1a1a1a1a1a1a1a1a1", none, none, "0x", 1, 1⟩

/-- A concrete user operation with a paymaster. -/
def op_b : UserOpInfo :=
  ⟨"0xb2b2b2b2b2b2b2b2b2b2b2b2b2b2b2b2b2b2b2b2", none,
   some "0xc3c3c3c3c3c3c3c3c3c3c3c3c3c3c3c3c3c3c3c3", "0x", 1, 1⟩

set_option maxRecDepth 8192 in
/-- C3 (code bug, evaluated at the failing input): a submission reply
whose error data is a decodable `FailedOp(0, "AA23 reverted: bad sig")`
payload does not lead to eviction of `ops[0]` and recursive
re-submission as the claim states; `send_bundle` raises
`UnboundLocalError` because line 160 reads `solidity_error_selector`
before its assignment at line 164. -/
theorem c3_send_bundle_eviction_unreachable :
    decode_FailedOp_event failedOpParams0 = some (0, "AA23 reverted: bad sig")
    ∧ send_bundle_reply_handling
        ⟨some ⟨"execution reverted", some ("0x220266b6" ++ failedOpParams0)⟩, none⟩
        [op_a] = .unboundLocal := by
  constructor
  · decide
  · rfl

/-- C4 (code bug, evaluated at the failing input): with two operations
and a reply reverting `FailedOp(0, "AA23 reverted: bad sig")` — a
reason containing "AA2" and not "AA3", so the claim expects the sender
of `ops[0]` to be banned — the code raises `UnboundLocalError` before
any ban; moreover the blame attribution at lines 174-189, were it
reached, reads `user_operation`, the loop variable left over from the
encoding loop, i.e. the entities of the last operation of the list
rather than of `ops[opIndex]`. -/
theorem c4_failedop_blame_unreachable :
    substrOf "AA2" "AA23 reverted: bad sig" = true
    ∧ substrOf "AA3" "AA23 reverted: bad sig" = false
    ∧ send_bundle_reply_handling
        ⟨some ⟨"execution reverted", some ("0x220266b6" ++ failedOpParams0)⟩, none⟩
        [op_a, op_b] = .unboundLocal := by
  refine ⟨by decide, by decide, rfl⟩

/-- C5: the source divides wall time by 1000 ("millisecond/second
timestamp bug", spec §9).  Evaluated at `now = 1700000000 s`:
(a) an operation with `validUntil = now - 1` (which the claim says must
be rejected with `ExpiresShortly`) passes the whole check, and
(b) an operation with `validAfter = 1600000000` (one hundred million
seconds in the past, so valid per the claim) is rejected with
`InvalidFields`. -/
theorem c5_timestamp_code_bug_eval :
    verify_sig_and_pre_operation_gas_and_timestamp
      ⟨"0xaaaaaaaaaaaaaaaaaaaaaaaaaaaaaaaaaaaaaaaa", none, none, "0x", 100000, 50000⟩
      ⟨100, 0, false, some 0, some 1699999999⟩ 1700000000 = .ok ()
    ∧ verify_sig_and_pre_operation_gas_and_timestamp
      ⟨"0xaaaaaaaaaaaaaaaaaaaaaaaaaaaaaaaaaaaaaaaa", none, none, "0x", 100000, 50000⟩
      ⟨100, 0, false, some 1600000000, some 1700010000⟩ 1700000000
      = .error (.validation .InvalidFields "Transaction is not valid yet" "") := by
  constructor <;> (unfold verify_sig_and_pre_operation_gas_and_timestamp; norm_num)

/-- C7: both expected-revert `eth_call` paths treat the absence of a
revert as a fatal `ValueError` (distinct from the `validation`
constructor used for `SimulateValidation` errors): a reply with no
error makes `simulate_validation_without_tracing` raise
"simulateValidation didn't revert!" and `get_addresses_code_hash` raise
"BundlerHelper should revert". -/
theorem c7_expected_revert_fatal :
    (∀ r : Reply, r.error = none →
      simulate_validation_without_tracing r
        = .error (.fatalValue "simulateValidation didn\x27t revert!"))
    ∧ (∀ r : Reply, r.error = none →
      get_addresses_code_hash r
        = .error (.fatalValue "BundlerHelper should revert")) := by
  constructor <;> intro r h <;>
    simp [simulate_validation_without_tracing, get_addresses_code_hash, h]

/-- Witness for C7 at the concrete empty reply. -/
theorem c7_expected_revert_fatal_witness :
    simulate_validation_without_tracing ⟨none, some "0x"⟩
      = .error (.fatalValue "simulateValidation didn\x27t revert!")
    ∧ get_addresses_code_hash ⟨none, some "0x"⟩
      = .error (.fatalValue "BundlerHelper should revert") :=
  ⟨c7_expected_revert_fatal.1 ⟨none, some "0x"⟩ rfl,
   c7_expected_revert_fatal.2 ⟨none, some "0x"⟩ rfl⟩
